import Mathlib

/-!
Verification development for the `rpiui` event check-in kiosk
(`src/main.rs`).  The program polls an NFC reader for card UIDs,
debounces repeated reads, resolves the guest behind a UID through a
remote API, and submits scores to a checkpoint endpoint with a
bounded exponential-backoff retry policy.

The shallow embedding below translates the relevant Rust functions
into executable Lean definitions:

* network responses are supplied by an oracle `Nat → HttpResult`
  (attempt number to outcome), and body parsing by an explicit
  `parse` function, so the retry loops are pure functions of their
  inputs;
* the four retrying request functions (`post_get_by_slug`,
  `get_visual`, `post_guests`, `post_load_score`) are translated with
  a fuel argument standing for the remaining iterations of the Rust
  loop `for attempt in 1..=max_retries`; the top-level wrapper
  supplies `fuel = max_retries`, `attempt = 1`, which makes the fuel
  encoding exactly the Rust loop.  Each returns the result together
  with the number of request attempts actually made and the list of
  backoff sleep durations (in seconds) performed;
* the NFC scan thread's loop body (`main.rs` lines 589-682) becomes a
  step function `scanStep` over the thread state (`last_uid`) and the
  UI state, consuming one poll-cycle input and producing an outcome:
  continue with new state, exit the loop (the Rust `return`), or
  panic (an out-of-bounds slice index);
* the `on_submit_score` UI callback (`main.rs` lines 484-555) becomes
  a function producing the list of logical network calls it performs
  together with the final UI state.

Rust `u8` bytes are modelled as `Fin 256`; `i32` parsing is modelled
with its sign and range behaviour; strings are Lean `String`s.
-/

/-- Configuration struct for NFC (`struct Config`, `main.rs` 13-18);
durations are in milliseconds. -/
structure Config where
  scan_interval : Nat
  stabilize_delay : Nat
  reader_name : String
  valid_uid_lengths : List Nat

/-- The `lazy_static` configuration value (`main.rs` 20-27). -/
def CONFIG : Config :=
  { scan_interval := 200
    stabilize_delay := 100
    reader_name := "ACR122"
    valid_uid_lengths := [4, 7, 10] }

/-- Minimal JSON value type standing for `serde_json::Value`. -/
inductive Json where
  | null : Json
  | bool (b : Bool) : Json
  | num (n : Int) : Json
  | str (s : String) : Json
  | arr (xs : List Json) : Json
  | obj (fields : List (String × Json)) : Json

/-- The application error enum (`enum AppError`, `main.rs` 30-46).
The wrapped foreign error values (`reqwest::Error`,
`serde_json::Error`, `pcsc::Error`, `slint::EventLoopError`) are
modelled by their message strings. -/
inductive AppError where
  | Http (e : String) : AppError
  | Json (e : String) : AppError
  | MissingEventId : AppError
  | ApiError (status : Nat) (message : String) : AppError
  | InvalidInput (msg : String) : AppError
  | Pcsc (e : String) : AppError
  | EventLoop (e : String) : AppError
deriving DecidableEq

/-- The `Display` rendering of `AppError` generated by the
`#[error(...)]` attributes (`main.rs` 30-46), as used by `{}`
formatting. -/
def AppError.display : AppError → String
  | .Http e => "HTTP error: " ++ e
  | .Json e => "JSON error: " ++ e
  | .MissingEventId => "Event ID not found in response"
  | .ApiError status message => "API error: " ++ toString status ++ " - " ++ message
  | .InvalidInput m => "Invalid input: " ++ m
  | .Pcsc e => "PCSC error: " ++ e
  | .EventLoop e => "Event loop error: " ++ e

/-- The derived `Debug` rendering of `AppError`, as used by `{:?}`
formatting in the submit handler (`main.rs` 550). -/
def AppError.debugFmt : AppError → String
  | .Http e => "Http(" ++ e ++ ")"
  | .Json e => "Json(" ++ e ++ ")"
  | .MissingEventId => "MissingEventId"
  | .ApiError status message =>
      "ApiError \x7b status: " ++ toString status ++ ", message: \"" ++ message ++ "\" \x7d"
  | .InvalidInput m => "InvalidInput(\"" ++ m ++ "\")"
  | .Pcsc e => "Pcsc(" ++ e ++ ")"
  | .EventLoop e => "EventLoop(" ++ e ++ ")"

/-- Checkpoint record of the `get_by_slug` response (`main.rs` 72-80);
Rust `i32` fields become `Int`. -/
structure Checkpoint where
  event_id : Int
  id : Int
  name : String
  repetible : Int
  score : Int
  slug : String
deriving DecidableEq

/-- `struct PostResponse` (`main.rs` 82-85). -/
structure PostResponse where
  checkpoint : Checkpoint
deriving DecidableEq

/-- `struct Guest` (`main.rs` 88-94): name, optional tag, and an
open attribute bag captured by `serde(flatten)`. -/
structure Guest where
  name : String
  tag : Option String
  other : Json

/-- `struct GuestsPostResponse` (`main.rs` 96-99). -/
structure GuestsPostResponse where
  guests : List Guest

/-- `struct LoadScorePostResponse` (`main.rs` 115-119): an arbitrary
flattened JSON payload. -/
structure LoadScorePostResponse where
  data : Json

/-- The sentinel payload built in the HTTP 409 branch of
`post_load_score` (`main.rs` 369-371):
`json!({"message": "Score already loaded"})`. -/
def scoreAlreadyLoadedSentinel : LoadScorePostResponse :=
  ⟨Json.obj [("message", Json.str "Score already loaded")]⟩

/-- Outcome of one HTTP send attempt: either a response with a status
code and body text, or a transport-level failure (`reqwest::Error`). -/
inductive HttpResult where
  | success (status : Nat) (body : String) : HttpResult
  | failure (err : String) : HttpResult

/-- Rust `str::parse::<i32>`: optional single leading `+` or `-`
sign, at least one digit, all digits, value within the `i32` range. -/
def rust_parse_i32 (s : String) : Option Int :=
  let chars := s.data
  let signed : Int × List Char :=
    match chars with
    | '+' :: rest => (1, rest)
    | '-' :: rest => (-1, rest)
    | rest => (1, rest)
  if signed.2 = [] ∨ ¬ signed.2.all Char.isDigit then
    none
  else
    let v : Int := signed.1 * (signed.2.foldl (fun a c => a * 10 + ((c.toNat : Int) - 48)) 0)
    if -(2 ^ 31) ≤ v ∧ v ≤ 2 ^ 31 - 1 then some v else none

/-- `fn validate_inputs` (`main.rs` 122-144), checks in source
order: empty token, empty slug, empty tag list, any empty tag, empty
score, non-integer score. -/
def validate_inputs (access_token : String) (slug : String)
    (guest_tags : List String) (score : String) : Except AppError Unit :=
  if access_token = "" then
    .error (.InvalidInput "Access token cannot be empty")
  else if slug = "" then
    .error (.InvalidInput "Slug cannot be empty")
  else if guest_tags = [] then
    .error (.InvalidInput "At least one guest tag is required")
  else if guest_tags.any (fun tag => tag = "") then
    .error (.InvalidInput "Guest tags cannot be empty")
  else if score = "" then
    .error (.InvalidInput "Score cannot be empty")
  else if (rust_parse_i32 score).isNone then
    .error (.InvalidInput "Score must be a valid integer")
  else
    .ok ()

/-- Loop body of `fn post_get_by_slug` (`main.rs` 159-201): `fuel`
is the number of remaining iterations of
`for attempt in 1..=max_retries` (the wrapper passes
`fuel = max_retries`, `attempt = 1`).  Returns the request outcome,
the number of send attempts performed, and the list of backoff
sleeps (`2^attempt` seconds each) executed. -/
def post_get_by_slug_go (parse : String → Except String PostResponse)
    (oracle : Nat → HttpResult) (max_retries : Nat) :
    Nat → Nat → Except AppError PostResponse × Nat × List Nat
  | _, 0 => (.error (.ApiError 0 "Max retries reached"), 0, [])
  | attempt, fuel + 1 =>
    match oracle attempt with
    | .success status body =>
      if status = 200 then
        match parse body with
        | .ok r => (.ok r, 1, [])
        | .error e => (.error (.Json e), 1, [])
      else if status = 429 ∨ status = 503 then
        if attempt = max_retries then
          (.error (.ApiError status body), 1, [])
        else
          let r := post_get_by_slug_go parse oracle max_retries (attempt + 1) fuel
          (r.1, r.2.1 + 1, 2 ^ attempt :: r.2.2)
      else
        (.error (.ApiError status body), 1, [])
    | .failure e =>
      if attempt = max_retries then
        (.error (.Http e), 1, [])
      else
        let r := post_get_by_slug_go parse oracle max_retries (attempt + 1) fuel
        (r.1, r.2.1 + 1, 2 ^ attempt :: r.2.2)

/-- `fn post_get_by_slug` (`main.rs` 147-206). -/
def post_get_by_slug (parse : String → Except String PostResponse)
    (oracle : Nat → HttpResult) (max_retries : Nat) :
    Except AppError PostResponse × Nat × List Nat :=
  post_get_by_slug_go parse oracle max_retries 1 max_retries

/-- Loop body of `fn get_visual` (`main.rs` 220-261), same retry
structure as `post_get_by_slug_go`. -/
def get_visual_go (parse : String → Except String Json)
    (oracle : Nat → HttpResult) (max_retries : Nat) :
    Nat → Nat → Except AppError Json × Nat × List Nat
  | _, 0 => (.error (.ApiError 0 "Max retries reached"), 0, [])
  | attempt, fuel + 1 =>
    match oracle attempt with
    | .success status body =>
      if status = 200 then
        match parse body with
        | .ok r => (.ok r, 1, [])
        | .error e => (.error (.Json e), 1, [])
      else if status = 429 ∨ status = 503 then
        if attempt = max_retries then
          (.error (.ApiError status body), 1, [])
        else
          let r := get_visual_go parse oracle max_retries (attempt + 1) fuel
          (r.1, r.2.1 + 1, 2 ^ attempt :: r.2.2)
      else
        (.error (.ApiError status body), 1, [])
    | .failure e =>
      if attempt = max_retries then
        (.error (.Http e), 1, [])
      else
        let r := get_visual_go parse oracle max_retries (attempt + 1) fuel
        (r.1, r.2.1 + 1, 2 ^ attempt :: r.2.2)

/-- `fn get_visual` (`main.rs` 209-266). -/
def get_visual (parse : String → Except String Json)
    (oracle : Nat → HttpResult) (max_retries : Nat) :
    Except AppError Json × Nat × List Nat :=
  get_visual_go parse oracle max_retries 1 max_retries

/-- Loop body of `fn post_guests` (`main.rs` 281-326), same retry
structure as `post_get_by_slug_go` (the Rust code reads the body text
and then deserializes it; both steps are folded into `parse`). -/
def post_guests_go (parse : String → Except String GuestsPostResponse)
    (oracle : Nat → HttpResult) (max_retries : Nat) :
    Nat → Nat → Except AppError GuestsPostResponse × Nat × List Nat
  | _, 0 => (.error (.ApiError 0 "Max retries reached"), 0, [])
  | attempt, fuel + 1 =>
    match oracle attempt with
    | .success status body =>
      if status = 200 then
        match parse body with
        | .ok r => (.ok r, 1, [])
        | .error e => (.error (.Json e), 1, [])
      else if status = 429 ∨ status = 503 then
        if attempt = max_retries then
          (.error (.ApiError status body), 1, [])
        else
          let r := post_guests_go parse oracle max_retries (attempt + 1) fuel
          (r.1, r.2.1 + 1, 2 ^ attempt :: r.2.2)
      else
        (.error (.ApiError status body), 1, [])
    | .failure e =>
      if attempt = max_retries then
        (.error (.Http e), 1, [])
      else
        let r := post_guests_go parse oracle max_retries (attempt + 1) fuel
        (r.1, r.2.1 + 1, 2 ^ attempt :: r.2.2)

/-- `fn post_guests` (`main.rs` 269-331). -/
def post_guests (parse : String → Except String GuestsPostResponse)
    (oracle : Nat → HttpResult) (max_retries : Nat) :
    Except AppError GuestsPostResponse × Nat × List Nat :=
  post_guests_go parse oracle max_retries 1 max_retries

/-- Loop body of `fn post_load_score` (`main.rs` 350-403).  Match
order follows the Rust `match resp.status()`: `OK`, then `CONFLICT`
(HTTP 409, returning the "Score already loaded" sentinel as a
success), then `429 | 503` with backoff, then any other status as an
immediate `ApiError`. -/
def post_load_score_go (parse : String → Except String LoadScorePostResponse)
    (oracle : Nat → HttpResult) (max_retries : Nat) :
    Nat → Nat → Except AppError LoadScorePostResponse × Nat × List Nat
  | _, 0 => (.error (.ApiError 0 "Max retries reached"), 0, [])
  | attempt, fuel + 1 =>
    match oracle attempt with
    | .success status body =>
      if status = 200 then
        match parse body with
        | .ok r => (.ok r, 1, [])
        | .error e => (.error (.Json e), 1, [])
      else if status = 409 then
        (.ok scoreAlreadyLoadedSentinel, 1, [])
      else if status = 429 ∨ status = 503 then
        if attempt = max_retries then
          (.error (.ApiError status body), 1, [])
        else
          let r := post_load_score_go parse oracle max_retries (attempt + 1) fuel
          (r.1, r.2.1 + 1, 2 ^ attempt :: r.2.2)
      else
        (.error (.ApiError status body), 1, [])
    | .failure e =>
      if attempt = max_retries then
        (.error (.Http e), 1, [])
      else
        let r := post_load_score_go parse oracle max_retries (attempt + 1) fuel
        (r.1, r.2.1 + 1, 2 ^ attempt :: r.2.2)

/-- `fn post_load_score` (`main.rs` 334-408). -/
def post_load_score (parse : String → Except String LoadScorePostResponse)
    (oracle : Nat → HttpResult) (max_retries : Nat) :
    Except AppError LoadScorePostResponse × Nat × List Nat :=
  post_load_score_go parse oracle max_retries 1 max_retries

/-- The UI fields of the Slint `AppWindow` that the core reads or
writes: `card_uid`, `user_name`, `current_screen`, `trivia_name`. -/
structure UIState where
  card_uid : String
  user_name : String
  current_screen : String
  trivia_name : String
deriving DecidableEq

/-- `fn show_error` (`main.rs` 455-463): schedules a UI update that
overwrites the `card_uid` field with `"Error: "` followed by the
message. -/
def show_error (ui : UIState) (msg : String) : UIState :=
  { ui with card_uid := "Error: " ++ msg }

/-- Uppercase hexadecimal digit character for a value below 16, as
produced by Rust `{:02X}` formatting. -/
def hexUpper (n : Nat) : Char :=
  if n < 10 then Char.ofNat (48 + n) else Char.ofNat (55 + n)

/-- `format!("{:02X}", b)` for a byte `b`: exactly two uppercase hex
digits. -/
def toHex2 (b : Fin 256) : String :=
  String.mk [hexUpper (b.val / 16), hexUpper (b.val % 16)]

/-- The UID normalization of the scan loop (`main.rs` 604-608):
`uid.iter().map(|b| format!("{:02X}", b)).collect::<Vec<_>>().join("")`. -/
def uidStr (uid : List (Fin 256)) : String :=
  String.join (uid.map toHex2)

/-- The success-trailer test of the scan loop (`main.rs` 598-601):
`response.len() >= 2 && response[len-2] == 0x90 && response[len-1] == 0x00`
with Rust short-circuit `&&`. -/
def respTrailerOk (response : List (Fin 256)) : Bool :=
  decide (2 ≤ response.length) &&
    (response.getD (response.length - 2) 0 == (0x90 : Fin 256)) &&
    (response.getD (response.length - 1) 0 == (0x00 : Fin 256))

/-- The UID payload `&response[..response.len() - 2]`
(`main.rs` 602). -/
def respPayload (response : List (Fin 256)) : List (Fin 256) :=
  response.take (response.length - 2)

/-- Rust slice indexing `xs[i]` where the index expression is
computed in `Int` to expose `usize` underflow: `some` is an in-bounds
read, `none` is a panic (negative index after underflow, or out of
bounds). -/
def rustIdx (xs : List (Fin 256)) (i : Int) : Option (Fin 256) :=
  if h : 0 ≤ i ∧ i.toNat < xs.length then some (xs.get ⟨i.toNat, h.2⟩) else none

/-- Thread-local state of the NFC scan loop: the `last_uid` string
(`main.rs` 587); empty means no card stored. -/
structure ScanState where
  last_uid : String
deriving DecidableEq

/-- Abstract events emitted by one poll cycle: `cardPresent` marks
the new-UID branch firing its downstream work (the `post_guests`
call and UI update), `cardAbsent` marks the removal branch
scheduling its one event-loop callback, `errorReported` marks a
`show_error` call. -/
inductive ScanEvent where
  | cardPresent (uid : String) : ScanEvent
  | cardAbsent : ScanEvent
  | errorReported (msg : String) : ScanEvent
deriving DecidableEq

/-- Environment input for one iteration of the scan loop: the result
of `ctx.connect` together with, on success, the result of
`card.transmit` (`none` = transmit failure) and the oracle outcome of
the `post_guests` call that a new valid UID would trigger. -/
inductive CycleInput where
  | connected (transmit : Option (List (Fin 256)))
      (guests : Except AppError GuestsPostResponse) : CycleInput
  | noSmartcard : CycleInput
  | connectErr (e : String) : CycleInput

/-- Outcome of one iteration of the scan loop: `step` continues
looping with updated state, `halt` is the Rust `return` that exits
the scan thread, `panic` is an out-of-bounds slice index. -/
inductive StepOutcome where
  | step (st : ScanState) (ui : UIState) (events : List ScanEvent) : StepOutcome
  | halt (st : ScanState) (ui : UIState) (events : List ScanEvent) : StepOutcome
  | panic : StepOutcome

/-- One iteration of the scan loop body (`main.rs` 589-682),
translated branch by branch:
connect success → transmit → trailer check → UID length allow-list
check → debounce comparison with `last_uid` → `post_guests` and UI
update (error: `show_error` then `return`); invalid length and
invalid trailer report via `show_error` and continue (the invalid
trailer report indexes `response[len-2]` and `response[len-1]`,
which panics for responses shorter than 2 bytes); `NoSmartcard`
clears a stored UID exactly once; any other connect error reports
and continues. -/
def scanStep (st : ScanState) (ui : UIState) (inp : CycleInput) : StepOutcome :=
  match inp with
  | .connected transmitRes guestsRes =>
    match transmitRes with
    | some response =>
      if respTrailerOk response then
        let uid := respPayload response
        if CONFIG.valid_uid_lengths.contains uid.length then
          let uid_str := uidStr uid
          if uid_str ≠ st.last_uid then
            let st' : ScanState := { last_uid := uid_str }
            match guestsRes with
            | .error e =>
              let msg := "Failed to fetch guests: " ++ e.display
              .halt st' (show_error ui msg) [.cardPresent uid_str, .errorReported msg]
            | .ok resp =>
              match resp.guests.head? with
              | some guest =>
                let username := guest.name
                let tag := guest.tag.getD ""
                if tag = "" then
                  let ui1 := show_error ui "Guest tag is missing in response"
                  .step st'
                    { ui1 with user_name := username, current_screen := "welcome",
                               card_uid := tag }
                    [.cardPresent uid_str, .errorReported "Guest tag is missing in response"]
                else
                  .step st'
                    { ui with user_name := username, current_screen := "welcome",
                              card_uid := tag }
                    [.cardPresent uid_str]
              | none =>
                let ui1 := show_error ui "No guests found in response"
                .step st'
                  { ui1 with user_name := "", current_screen := "welcome", card_uid := "" }
                  [.cardPresent uid_str, .errorReported "No guests found in response"]
          else
            .step st ui []
        else
          let msg := "Invalid UID length: " ++ toString uid.length
          .step st (show_error ui msg) [.errorReported msg]
      else
        match rustIdx response ((response.length : Int) - 2),
              rustIdx response ((response.length : Int) - 1) with
        | some b1, some b2 =>
          let msg := "Invalid response: " ++ toHex2 b1 ++ " " ++ toHex2 b2
          .step st (show_error ui msg) [.errorReported msg]
        | _, _ => .panic
    | none =>
      .step st (show_error ui "Failed to read card") [.errorReported "Failed to read card"]
  | .noSmartcard =>
    if st.last_uid ≠ "" then
      .step { last_uid := "" } ui [.cardAbsent]
    else
      .step st ui []
  | .connectErr e =>
    let msg := "Connect error: " ++ e
    .step st (show_error ui msg) [.errorReported msg]

/-- Result of running the scan loop over a finite input trace. -/
inductive RunResult where
  | finished (st : ScanState) (ui : UIState) : RunResult
  | exited (st : ScanState) (ui : UIState) : RunResult
  | panicked : RunResult

/-- Run the scan loop over a list of poll-cycle inputs, collecting
all emitted events; stops early on loop exit or panic. -/
def scanRun : ScanState → UIState → List CycleInput → List ScanEvent × RunResult
  | st, ui, [] => ([], .finished st ui)
  | st, ui, inp :: rest =>
    match scanStep st ui inp with
    | .step st' ui' evs =>
      let r := scanRun st' ui' rest
      (evs ++ r.1, r.2)
    | .halt st' ui' evs => (evs, .exited st' ui')
    | .panic => ([], .panicked)

/-- Number of `cardPresent` events in a trace. -/
def countCardPresent (evs : List ScanEvent) : Nat :=
  evs.countP (fun e => match e with | .cardPresent _ => true | _ => false)

/-- The logical network requests issued by the submit-score handler;
each corresponds to one (internally retried) call of an API client
function. -/
inductive NetCall where
  | lookupBySlug (access_token : String) (slug : String) : NetCall
  | registerGuest (access_token : String) (guest_tag : String) : NetCall
  | visual (access_token : String) (event_id : Int) : NetCall
  | loadScore (access_token : String) (checkpoint_id : Int)
      (guest_tag : String) (score : String) : NetCall
deriving DecidableEq

/-- The `on_submit_score` UI callback (`main.rs` 484-555):
`post_get_by_slug` with 3 retries first; on its failure `show_error`
and return.  Then read `trivia_name` and `card_uid` from the UI, map
the trivia name to a checkpoint-id string (`"TRIVIA 1"` → `"62"`,
`"TRIVIA 2"` → `"63"`, otherwise `show_error` and return), parse it
as `i32`, and call `post_load_score` with 3 retries using the
UI-read `card_uid` as the guest tag; on its failure `show_error` and
return.  Returns the list of logical network calls made and the
final UI state. -/
def on_submit_score (access_token : String) (slug : String)
    (parseSlug : String → Except String PostResponse) (slugOracle : Nat → HttpResult)
    (parseLoad : String → Except String LoadScorePostResponse) (loadOracle : Nat → HttpResult)
    (ui : UIState) (score : String) : List NetCall × UIState :=
  match (post_get_by_slug parseSlug slugOracle 3).1 with
  | .error e =>
    ([.lookupBySlug access_token slug],
      show_error ui ("Failed to fetch checkpoint: " ++ e.display))
  | .ok _ =>
    let valueoftrivia := ui.trivia_name
    let gettag := ui.card_uid
    match (if valueoftrivia = "TRIVIA 1" then some "62"
           else if valueoftrivia = "TRIVIA 2" then some "63"
           else none) with
    | none => ([.lookupBySlug access_token slug], show_error ui "Invalid trivia name")
    | some cidStr =>
      match rust_parse_i32 cidStr with
      | none =>
        ([.lookupBySlug access_token slug],
          show_error ui "Checkpoint ID must be a valid integer")
      | some checkpoint_id =>
        match (post_load_score parseLoad loadOracle 3).1 with
        | .error e =>
          ([.lookupBySlug access_token slug,
            .loadScore access_token checkpoint_id gettag score],
            show_error ui ("Failed to load score: " ++ e.debugFmt))
        | .ok _ =>
          ([.lookupBySlug access_token slug,
            .loadScore access_token checkpoint_id gettag score], ui)

/-- Uppercase hexadecimal alphabet. -/
def hexAlphabet : List Char := "0123456789ABCDEF".data

/- Concrete fixtures used by witnesses and counterexamples. -/

/-- A concrete checkpoint value. -/
def okCheckpoint : Checkpoint := ⟨9, 62, "chk", 0, 5, "checkpoint-prueba-546"⟩

/-- A parse function that always succeeds with `okCheckpoint`. -/
def parseSlugOk : String → Except String PostResponse := fun _ => .ok ⟨okCheckpoint⟩

/-- A parse function for `load_score` that always succeeds. -/
def parseLoadOk : String → Except String LoadScorePostResponse := fun _ => .ok ⟨Json.null⟩

/-- An oracle that always answers HTTP 200. -/
def oracleOk : Nat → HttpResult := fun _ => .success 200 "ok-body"

/-- A concrete UI state with `trivia_name = "TRIVIA 1"` and a stored
card tag. -/
def uiTrivia1 : UIState := ⟨"TAG", "Alice", "welcome", "TRIVIA 1"⟩

/-- A concrete valid transmit response: 4-byte UID plus `90 00`
trailer. -/
def respOk4 : List (Fin 256) := [0x04, 0xA1, 0xB2, 0xC3, 0x90, 0x00]

/-- A concrete failing `post_guests` outcome. -/
def guestsErr : Except AppError GuestsPostResponse := .error (.ApiError 500 "boom")

/-- A concrete successful `post_guests` outcome with one guest. -/
def guestsOkAlice : Except AppError GuestsPostResponse :=
  .ok ⟨[⟨"Alice", some "g-123", Json.null⟩]⟩

/-- A blank UI state. -/
def uiBlank : UIState := ⟨"", "", "", ""⟩

/-- A UI state holding a previously displayed tag, name and screen. -/
def uiOldTag : UIState := ⟨"OLDTAG", "Alice", "welcome", "TRIVIA 1"⟩

/-- A concrete transport-level `post_guests` failure. -/
def guestsErr2 : Except AppError GuestsPostResponse := .error (.Http "connection reset")

/-! ## Helper lemmas -/

/-- `String.length` is the length of the character list. -/
lemma string_length_eq_data (s : String) : s.length = s.data.length := rfl

set_option maxRecDepth 8192 in
/-- `toHex2` always yields two characters of the uppercase hex
alphabet. -/
lemma toHex2_spec : ∀ b : Fin 256,
    (toHex2 b).data.length = 2 ∧ ∀ c ∈ (toHex2 b).data, c ∈ hexAlphabet := by decide

/-- Characters of `uidStr` as a flattened list of per-byte chunks. -/
lemma uidStr_data (uid : List (Fin 256)) :
    (uidStr uid).data = ((uid.map toHex2).map String.data).flatten := by
  rw [uidStr, String.join_eq]

/-- `uidStr` produces two characters per byte. -/
lemma uidStr_length (uid : List (Fin 256)) : (uidStr uid).length = 2 * uid.length := by
  induction uid with
  | nil => rfl
  | cons b t ih =>
    have h1 : (uidStr (b :: t)).data = (toHex2 b).data ++ (uidStr t).data := by
      rw [uidStr_data, uidStr_data]
      simp
    rw [string_length_eq_data, h1, List.length_append, (toHex2_spec b).1,
      ← string_length_eq_data, ih]
    simp [Nat.mul_add, Nat.add_comm]
  

/-- Characters of `uidStr` all lie in the uppercase hex alphabet. -/
lemma uidStr_mem_hex (uid : List (Fin 256)) :
    ∀ c ∈ (uidStr uid).data, c ∈ hexAlphabet := by
  intro c hc
  rw [uidStr_data, List.mem_flatten] at hc
  obtain ⟨s, hs, hcs⟩ := hc
  rw [List.mem_map] at hs
  obtain ⟨t, ht, rfl⟩ := hs
  rw [List.mem_map] at ht
  obtain ⟨b, hb, rfl⟩ := ht
  exact (toHex2_spec b).2 c hcs

/-! ## Claim theorems -/

/-- C8: for every UID byte sequence whose length is in the accepted
allow-list, the normalization `uidStr` produces a hexadecimal string
of exactly two uppercase hex digits per byte (determinism holds by
construction: `uidStr` is a pure function). -/
theorem c8_uid_normalization (uid : List (Fin 256))
    (_h : uid.length ∈ CONFIG.valid_uid_lengths) :
    (uidStr uid).length = 2 * uid.length ∧
      ∀ c ∈ (uidStr uid).data, c ∈ hexAlphabet :=
  ⟨uidStr_length uid, uidStr_mem_hex uid⟩

/-- C8 witness: the allow-listed 4-byte UID `04 A1 B2 C3`. -/
theorem c8_uid_normalization_witness :
    (uidStr [0x04, 0xA1, 0xB2, 0xC3]).length =
        2 * ([0x04, 0xA1, 0xB2, 0xC3] : List (Fin 256)).length ∧
      ∀ c ∈ (uidStr [0x04, 0xA1, 0xB2, 0xC3]).data, c ∈ hexAlphabet :=
  c8_uid_normalization [0x04, 0xA1, 0xB2, 0xC3] (by decide)

/-- C4: whenever the `load_score` request sees an HTTP 409 response —
at any attempt position, with any remaining fuel, for every attempt
bound — `post_load_score` returns success with the
"Score already loaded" sentinel payload, makes no further attempt
(attempt count 1 from that point, no sleeps) and never produces an
error for that status. -/
theorem c4_conflict_is_success :
    (∀ parse oracle max_retries attempt fuel body,
        oracle attempt = HttpResult.success 409 body →
        post_load_score_go parse oracle max_retries attempt (fuel + 1) =
          (.ok scoreAlreadyLoadedSentinel, 1, [])) ∧
    (∀ parse oracle max_retries body, 1 ≤ max_retries →
        oracle 1 = HttpResult.success 409 body →
        post_load_score parse oracle max_retries =
          (.ok scoreAlreadyLoadedSentinel, 1, [])) := by
  constructor
  · intro parse oracle max_retries attempt fuel body h
    simp [post_load_score_go, h]
  · intro parse oracle max_retries body hm h
    cases max_retries with
    | zero => omega
    | succ k => simp [post_load_score, post_load_score_go, h]

/-- C4 witness: a first-attempt 409 with `maxAttempts = 3`. -/
theorem c4_conflict_is_success_witness :
    post_load_score parseLoadOk (fun _ => HttpResult.success 409 "conflict") 3 =
      (.ok scoreAlreadyLoadedSentinel, 1, []) :=
  c4_conflict_is_success.2 parseLoadOk (fun _ => HttpResult.success 409 "conflict") 3
    "conflict" (by decide) rfl

/-- C5: for each of the four API operations with `maxAttempts = 3`
and an always-429 (or always-503) response sequence, exactly 3
attempts occur with backoff sleeps `2^1` then `2^2` seconds (none
after the final attempt) and the result is an `ApiError` with the
last response's status and body; any other non-success status (for
`post_load_score`, other than the 409 conflict carve-out) fails on
the first attempt with that status and body and no retry. -/
theorem c5_retry_policy :
    (∀ (parse : String → Except String PostResponse) (bodyFn : Nat → String),
        post_get_by_slug parse (fun a => HttpResult.success 429 (bodyFn a)) 3 =
          (.error (.ApiError 429 (bodyFn 3)), 3, [2, 4]) ∧
        post_get_by_slug parse (fun a => HttpResult.success 503 (bodyFn a)) 3 =
          (.error (.ApiError 503 (bodyFn 3)), 3, [2, 4])) ∧
    (∀ (parse : String → Except String PostResponse) (s : Nat) (body : String),
        s ≠ 200 → s ≠ 429 → s ≠ 503 →
        post_get_by_slug parse (fun _ => HttpResult.success s body) 3 =
          (.error (.ApiError s body), 1, [])) ∧
    (∀ (parse : String → Except String Json) (bodyFn : Nat → String),
        get_visual parse (fun a => HttpResult.success 429 (bodyFn a)) 3 =
          (.error (.ApiError 429 (bodyFn 3)), 3, [2, 4]) ∧
        get_visual parse (fun a => HttpResult.success 503 (bodyFn a)) 3 =
          (.error (.ApiError 503 (bodyFn 3)), 3, [2, 4])) ∧
    (∀ (parse : String → Except String Json) (s : Nat) (body : String),
        s ≠ 200 → s ≠ 429 → s ≠ 503 →
        get_visual parse (fun _ => HttpResult.success s body) 3 =
          (.error (.ApiError s body), 1, [])) ∧
    (∀ (parse : String → Except String GuestsPostResponse) (bodyFn : Nat → String),
        post_guests parse (fun a => HttpResult.success 429 (bodyFn a)) 3 =
          (.error (.ApiError 429 (bodyFn 3)), 3, [2, 4]) ∧
        post_guests parse (fun a => HttpResult.success 503 (bodyFn a)) 3 =
          (.error (.ApiError 503 (bodyFn 3)), 3, [2, 4])) ∧
    (∀ (parse : String → Except String GuestsPostResponse) (s : Nat) (body : String),
        s ≠ 200 → s ≠ 429 → s ≠ 503 →
        post_guests parse (fun _ => HttpResult.success s body) 3 =
          (.error (.ApiError s body), 1, [])) ∧
    (∀ (parse : String → Except String LoadScorePostResponse) (bodyFn : Nat → String),
        post_load_score parse (fun a => HttpResult.success 429 (bodyFn a)) 3 =
          (.error (.ApiError 429 (bodyFn 3)), 3, [2, 4]) ∧
        post_load_score parse (fun a => HttpResult.success 503 (bodyFn a)) 3 =
          (.error (.ApiError 503 (bodyFn 3)), 3, [2, 4])) ∧
    (∀ (parse : String → Except String LoadScorePostResponse) (s : Nat) (body : String),
        s ≠ 200 → s ≠ 409 → s ≠ 429 → s ≠ 503 →
        post_load_score parse (fun _ => HttpResult.success s body) 3 =
          (.error (.ApiError s body), 1, [])) := by
  refine ⟨?_, ?_, ?_, ?_, ?_, ?_, ?_, ?_⟩
  · exact fun parse bodyFn => ⟨rfl, rfl⟩
  · intro parse s body h200 h429 h503
    simp [post_get_by_slug, post_get_by_slug_go, h200, h429, h503]
  · exact fun parse bodyFn => ⟨rfl, rfl⟩
  · intro parse s body h200 h429 h503
    simp [get_visual, get_visual_go, h200, h429, h503]
  · exact fun parse bodyFn => ⟨rfl, rfl⟩
  · intro parse s body h200 h429 h503
    simp [post_guests, post_guests_go, h200, h429, h503]
  · exact fun parse bodyFn => ⟨rfl, rfl⟩
  · intro parse s body h200 h409 h429 h503
    simp [post_load_score, post_load_score_go, h200, h409, h429, h503]

/-- C5 witness: always-429 and immediate-404 runs at `maxAttempts = 3`. -/
theorem c5_retry_policy_witness :
    (post_get_by_slug parseSlugOk (fun a => HttpResult.success 429 ("r" ++ toString a)) 3 =
      (.error (.ApiError 429 ("r" ++ toString 3)), 3, [2, 4])) ∧
    (post_get_by_slug parseSlugOk (fun _ => HttpResult.success 404 "nf") 3 =
      (.error (.ApiError 404 "nf"), 1, [])) ∧
    (get_visual (fun _ => .ok Json.null) (fun _ => HttpResult.success 404 "nf") 3 =
      (.error (.ApiError 404 "nf"), 1, [])) ∧
    (post_guests (fun _ => .ok ⟨[]⟩) (fun _ => HttpResult.success 404 "nf") 3 =
      (.error (.ApiError 404 "nf"), 1, [])) ∧
    (post_load_score parseLoadOk (fun _ => HttpResult.success 404 "nf") 3 =
      (.error (.ApiError 404 "nf"), 1, [])) := by
  refine ⟨?_, ?_, ?_, ?_, ?_⟩
  · exact (c5_retry_policy.1 parseSlugOk (fun a => "r" ++ toString a)).1
  · exact c5_retry_policy.2.1 parseSlugOk 404 "nf" (by decide) (by decide) (by decide)
  · exact c5_retry_policy.2.2.2.1 (fun _ => .ok Json.null) 404 "nf"
      (by decide) (by decide) (by decide)
  · exact c5_retry_policy.2.2.2.2.2.1 (fun _ => .ok ⟨[]⟩) 404 "nf"
      (by decide) (by decide) (by decide)
  · exact c5_retry_policy.2.2.2.2.2.2.2 parseLoadOk 404 "nf"
      (by decide) (by decide) (by decide) (by decide)

/-- C2: the claim is right about `validate_inputs` itself, but the
submit-score handler never calls it: with an empty (hence
non-integer) score — which `validate_inputs` would reject — the
handler still performs the `lookupBySlug` network call and then the
`loadScore` network call, and produces no `InvalidInput` error.  The
first two conjuncts evaluate `validate_inputs` at the failing
inputs; the third evaluates the handler at the failing input and
shows the network calls it makes. -/
theorem c2_submit_flow_skips_validation :
    (validate_inputs "t" "checkpoint-prueba-546" ["TAG"] "" =
        .error (.InvalidInput "Score cannot be empty")) ∧
    (validate_inputs "t" "checkpoint-prueba-546" ["TAG"] "abc" =
        .error (.InvalidInput "Score must be a valid integer")) ∧
    (on_submit_score "t" "checkpoint-prueba-546" parseSlugOk oracleOk parseLoadOk oracleOk
        uiTrivia1 "" =
      ([.lookupBySlug "t" "checkpoint-prueba-546", .loadScore "t" 62 "TAG" ""], uiTrivia1)) := by
  refine ⟨rfl, rfl, rfl⟩

/-- C3 counterexample: a fully successful submit run performs
`lookupBySlug` and then `postScore` directly — no input validation
and no `registerGuest` call occurs for the guest tag, contradicting
the claimed validate → lookup → per-tag (register, score)
sequence. -/
theorem c3_counterexample :
    ((on_submit_score "t" "checkpoint-prueba-546" parseSlugOk oracleOk parseLoadOk oracleOk
        uiTrivia1 "5").1 =
      [.lookupBySlug "t" "checkpoint-prueba-546", .loadScore "t" 62 "TAG" "5"]) ∧
    NetCall.registerGuest "t" "TAG" ∉
      (on_submit_score "t" "checkpoint-prueba-546" parseSlugOk oracleOk parseLoadOk oracleOk
        uiTrivia1 "5").1 := by
  refine ⟨rfl, by decide⟩

/-- C3 amended: the submit flow performs `lookupBySlug`, then maps
the selected mode to a checkpoint id, then a single `postScore` with
the guest tag read from the UI's card-uid field — with no input
validation and no `registerGuest`; on the first failure anywhere in
this sequence the remaining steps are aborted and the error
surfaced, and already-made calls are not undone (the call list keeps
every call made before the failure). -/
theorem c3_submit_sequence :
    ∀ (tok slug : String) (parseS : String → Except String PostResponse)
      (oS : Nat → HttpResult) (parseL : String → Except String LoadScorePostResponse)
      (oL : Nat → HttpResult) (ui : UIState) (score : String),
      (∀ e, (post_get_by_slug parseS oS 3).1 = .error e →
        on_submit_score tok slug parseS oS parseL oL ui score =
          ([.lookupBySlug tok slug],
            show_error ui ("Failed to fetch checkpoint: " ++ e.display))) ∧
      (∀ r, (post_get_by_slug parseS oS 3).1 = .ok r →
        ui.trivia_name ≠ "TRIVIA 1" → ui.trivia_name ≠ "TRIVIA 2" →
        on_submit_score tok slug parseS oS parseL oL ui score =
          ([.lookupBySlug tok slug], show_error ui "Invalid trivia name")) ∧
      (∀ r e, (post_get_by_slug parseS oS 3).1 = .ok r →
        ui.trivia_name = "TRIVIA 1" →
        (post_load_score parseL oL 3).1 = .error e →
        on_submit_score tok slug parseS oS parseL oL ui score =
          ([.lookupBySlug tok slug, .loadScore tok 62 ui.card_uid score],
            show_error ui ("Failed to load score: " ++ e.debugFmt))) ∧
      (∀ r r2, (post_get_by_slug parseS oS 3).1 = .ok r →
        ui.trivia_name = "TRIVIA 1" →
        (post_load_score parseL oL 3).1 = .ok r2 →
        on_submit_score tok slug parseS oS parseL oL ui score =
          ([.lookupBySlug tok slug, .loadScore tok 62 ui.card_uid score], ui)) := by
  intro tok slug parseS oS parseL oL ui score
  refine ⟨?_, ?_, ?_, ?_⟩
  · intro e he
    simp [on_submit_score, he]
  · intro r hr h1 h2
    simp [on_submit_score, hr, h1, h2]
  · intro r e hr h1 he
    have h62 : rust_parse_i32 "62" = some 62 := rfl
    simp [on_submit_score, hr, h1, h62, he]
  · intro r r2 hr h1 h2
    have h62 : rust_parse_i32 "62" = some 62 := rfl
    simp [on_submit_score, hr, h1, h62, h2]

/-- C3 witness: a fully successful run of the amended sequence. -/
theorem c3_submit_sequence_witness :
    on_submit_score "t" "checkpoint-prueba-546" parseSlugOk oracleOk parseLoadOk oracleOk
        uiTrivia1 "5" =
      ([.lookupBySlug "t" "checkpoint-prueba-546", .loadScore "t" 62 uiTrivia1.card_uid "5"],
        uiTrivia1) :=
  (c3_submit_sequence "t" "checkpoint-prueba-546" parseSlugOk oracleOk parseLoadOk oracleOk
    uiTrivia1 "5").2.2.2 ⟨okCheckpoint⟩ ⟨Json.null⟩ rfl rfl rfl

/-- C10: every `show_error` notification overwrites the UI's
card-uid field with `"Error: "` followed by the message, and a
submit occurring afterwards (before any new successful scan rewrites
the field) sends exactly that error text to the server as the
`guest_tag` of the `loadScore` call. -/
theorem c10_error_text_becomes_guest_tag :
    (∀ ui msg, show_error ui msg = { ui with card_uid := "Error: " ++ msg }) ∧
    (∀ (tok slug : String) (parseS : String → Except String PostResponse)
        (oS : Nat → HttpResult) (parseL : String → Except String LoadScorePostResponse)
        (oL : Nat → HttpResult) (ui : UIState) (msg score : String) (r : PostResponse),
      ui.trivia_name = "TRIVIA 1" →
      (post_get_by_slug parseS oS 3).1 = .ok r →
      (on_submit_score tok slug parseS oS parseL oL (show_error ui msg) score).1 =
        [.lookupBySlug tok slug, .loadScore tok 62 ("Error: " ++ msg) score]) := by
  constructor
  · intro ui msg; rfl
  · intro tok slug parseS oS parseL oL ui msg score r htrivia hok
    have h62 : rust_parse_i32 "62" = some 62 := rfl
    cases hl : (post_load_score parseL oL 3).1 with
    | error e => simp [on_submit_score, hok, show_error, htrivia, h62, hl]
    | ok r2 => simp [on_submit_score, hok, show_error, htrivia, h62, hl]

/-- C10 witness: submitting after the guests-fetch error text was
shown sends that text as the guest tag. -/
theorem c10_error_text_becomes_guest_tag_witness :
    (on_submit_score "t" "checkpoint-prueba-546" parseSlugOk oracleOk parseLoadOk oracleOk
        (show_error uiTrivia1 "Failed to fetch guests: API error: 500 - boom") "5").1 =
      [.lookupBySlug "t" "checkpoint-prueba-546",
        .loadScore "t" 62 ("Error: " ++ "Failed to fetch guests: API error: 500 - boom") "5"] :=
  c10_error_text_becomes_guest_tag.2 "t" "checkpoint-prueba-546" parseSlugOk oracleOk
    parseLoadOk oracleOk uiTrivia1 "Failed to fetch guests: API error: 500 - boom" "5"
    ⟨okCheckpoint⟩ rfl rfl

/-- C9: the invalid-trailer reporting branch of the scan loop indexes
the transmit response at `len - 2` and `len - 1`; for responses of
length 0 or 1 this underflows/is out of bounds and panics, while for
responses of length at least 2 (with a bad trailer) it reports the
error via `show_error` and continues without panicking. -/
theorem c9_trailer_branch_bounds :
    (∀ (st : ScanState) (ui : UIState) (g : Except AppError GuestsPostResponse)
        (resp : List (Fin 256)), resp.length ≤ 1 →
      scanStep st ui (.connected (some resp) g) = .panic) ∧
    (∀ (st : ScanState) (ui : UIState) (g : Except AppError GuestsPostResponse)
        (resp : List (Fin 256)), 2 ≤ resp.length → respTrailerOk resp = false →
      ∃ b1 b2, rustIdx resp ((resp.length : Int) - 2) = some b1 ∧
        rustIdx resp ((resp.length : Int) - 1) = some b2 ∧
        scanStep st ui (.connected (some resp) g) =
          .step st (show_error ui ("Invalid response: " ++ toHex2 b1 ++ " " ++ toHex2 b2))
            [.errorReported ("Invalid response: " ++ toHex2 b1 ++ " " ++ toHex2 b2)]) := by
  constructor
  · intro st ui g resp h
    have hn : ¬ (2 ≤ resp.length) := by omega
    have htr : respTrailerOk resp = false := by
      simp [respTrailerOk, hn]
    have h2 : rustIdx resp ((resp.length : Int) - 2) = none := by
      rw [rustIdx, dif_neg]
      rintro ⟨h0, -⟩
      omega
    simp [scanStep, htr, h2]
  · intro st ui g resp h htr
    have hc1 : 0 ≤ (resp.length : Int) - 2 ∧ ((resp.length : Int) - 2).toNat < resp.length := by
      constructor <;> omega
    have hc2 : 0 ≤ (resp.length : Int) - 1 ∧ ((resp.length : Int) - 1).toNat < resp.length := by
      constructor <;> omega
    have hb1 : rustIdx resp ((resp.length : Int) - 2) =
        some (resp.get ⟨((resp.length : Int) - 2).toNat, hc1.2⟩) := by
      rw [rustIdx, dif_pos hc1]
    have hb2 : rustIdx resp ((resp.length : Int) - 1) =
        some (resp.get ⟨((resp.length : Int) - 1).toNat, hc2.2⟩) := by
      rw [rustIdx, dif_pos hc2]
    exact ⟨_, _, hb1, hb2, by simp [scanStep, htr, hb1, hb2]⟩

/-- C9 witness: the empty response and a 1-byte response panic; a
2-byte bad-trailer response is reported without panic. -/
theorem c9_trailer_branch_bounds_witness :
    (scanStep ⟨""⟩ uiBlank (.connected (some ([] : List (Fin 256))) guestsOkAlice) = .panic) ∧
    (scanStep ⟨""⟩ uiBlank (.connected (some ([0x63] : List (Fin 256))) guestsOkAlice) =
      .panic) ∧
    (∃ b1 b2,
      rustIdx [0x01, 0x02] ((([0x01, 0x02] : List (Fin 256)).length : Int) - 2) = some b1 ∧
      rustIdx [0x01, 0x02] ((([0x01, 0x02] : List (Fin 256)).length : Int) - 1) = some b2 ∧
      scanStep ⟨""⟩ uiBlank (.connected (some [0x01, 0x02]) guestsOkAlice) =
        .step ⟨""⟩ (show_error uiBlank ("Invalid response: " ++ toHex2 b1 ++ " " ++ toHex2 b2))
          [.errorReported ("Invalid response: " ++ toHex2 b1 ++ " " ++ toHex2 b2)]) :=
  ⟨c9_trailer_branch_bounds.1 ⟨""⟩ uiBlank guestsOkAlice [] (by decide),
    c9_trailer_branch_bounds.1 ⟨""⟩ uiBlank guestsOkAlice [0x63] (by decide),
    c9_trailer_branch_bounds.2 ⟨""⟩ uiBlank guestsOkAlice [0x01, 0x02]
      (by decide) (by decide)⟩

/-- C1 counterexample: an error branch inside the poll loop does
terminate it — when a freshly read valid UID's `post_guests` call
fails, the scan thread reports the error and then returns, exiting
the loop (`.halt`), contradicting "no error branch inside the loop
terminates it". -/
theorem c1_counterexample :
    scanStep ⟨""⟩ uiBlank (.connected (some respOk4) guestsErr2) =
      .halt ⟨"04A1B2C3"⟩
        ⟨"Error: Failed to fetch guests: HTTP error: connection reset", "", "", ""⟩
        [.cardPresent "04A1B2C3",
          .errorReported "Failed to fetch guests: HTTP error: connection reset"] := rfl

/-- C1 amended: every error branch inside the poll loop — connect
error, transmit failure, malformed trailer (of reportable length),
invalid UID length — reports the error to the presentation surface
and continues polling, except the failure of the in-loop
`post_guests` (registerGuest) call, which reports the error and then
exits the loop. -/
theorem c1_poll_loop_continuation :
    (∀ (st : ScanState) (ui : UIState) (e : String),
      scanStep st ui (.connectErr e) =
        .step st (show_error ui ("Connect error: " ++ e))
          [.errorReported ("Connect error: " ++ e)]) ∧
    (∀ (st : ScanState) (ui : UIState) (g : Except AppError GuestsPostResponse),
      scanStep st ui (.connected none g) =
        .step st (show_error ui "Failed to read card") [.errorReported "Failed to read card"]) ∧
    (∀ (st : ScanState) (ui : UIState) (g : Except AppError GuestsPostResponse)
        (resp : List (Fin 256)) (b1 b2 : Fin 256),
      respTrailerOk resp = false →
      rustIdx resp ((resp.length : Int) - 2) = some b1 →
      rustIdx resp ((resp.length : Int) - 1) = some b2 →
      scanStep st ui (.connected (some resp) g) =
        .step st (show_error ui ("Invalid response: " ++ toHex2 b1 ++ " " ++ toHex2 b2))
          [.errorReported ("Invalid response: " ++ toHex2 b1 ++ " " ++ toHex2 b2)]) ∧
    (∀ (st : ScanState) (ui : UIState) (g : Except AppError GuestsPostResponse)
        (resp : List (Fin 256)),
      respTrailerOk resp = true →
      (respPayload resp).length ∉ CONFIG.valid_uid_lengths →
      scanStep st ui (.connected (some resp) g) =
        .step st (show_error ui ("Invalid UID length: " ++ toString (respPayload resp).length))
          [.errorReported ("Invalid UID length: " ++ toString (respPayload resp).length)]) ∧
    (∀ (st : ScanState) (ui : UIState) (e : AppError) (resp : List (Fin 256)),
      respTrailerOk resp = true →
      (respPayload resp).length ∈ CONFIG.valid_uid_lengths →
      uidStr (respPayload resp) ≠ st.last_uid →
      scanStep st ui (.connected (some resp) (.error e)) =
        .halt ⟨uidStr (respPayload resp)⟩
          (show_error ui ("Failed to fetch guests: " ++ e.display))
          [.cardPresent (uidStr (respPayload resp)),
            .errorReported ("Failed to fetch guests: " ++ e.display)]) := by
  refine ⟨?_, ?_, ?_, ?_, ?_⟩
  · intro st ui e; rfl
  · intro st ui g; rfl
  · intro st ui g resp b1 b2 htr hb1 hb2
    simp [scanStep, htr, hb1, hb2]
  · intro st ui g resp htr hlen
    simp [scanStep, htr, hlen]
  · intro st ui e resp htr hlen hne
    simp [scanStep, htr, hlen, hne]

/-- C1 witness: a guests-call failure after a fresh valid scan exits
the loop. -/
theorem c1_poll_loop_continuation_witness :
    scanStep ⟨""⟩ uiOldTag (.connected (some respOk4) guestsErr) =
      .halt ⟨uidStr (respPayload respOk4)⟩
        (show_error uiOldTag
          ("Failed to fetch guests: " ++ (AppError.ApiError 500 "boom").display))
        [.cardPresent (uidStr (respPayload respOk4)),
          .errorReported ("Failed to fetch guests: " ++ (AppError.ApiError 500 "boom").display)] :=
  c1_poll_loop_continuation.2.2.2.2 ⟨""⟩ uiOldTag (.ApiError 500 "boom") respOk4
    (by decide) (by decide) (by decide)

/-- C7 counterexample: when the scan flow's `post_guests`
(registerGuest) call fails, the previously displayed card UID is NOT
left unchanged — `show_error` overwrites the UI's card-uid field
`"OLDTAG"` with the error text. -/
theorem c7_counterexample :
    (scanStep ⟨""⟩ uiOldTag (.connected (some respOk4) guestsErr) =
      .halt ⟨"04A1B2C3"⟩
        ⟨"Error: Failed to fetch guests: API error: 500 - boom", "Alice", "welcome", "TRIVIA 1"⟩
        [.cardPresent "04A1B2C3",
          .errorReported "Failed to fetch guests: API error: 500 - boom"]) ∧
    uiOldTag.card_uid = "OLDTAG" ∧
    ("Error: Failed to fetch guests: API error: 500 - boom" ≠ "OLDTAG") := by
  refine ⟨rfl, rfl, by decide⟩

/-- C7 amended: when the scan flow's `post_guests` (registerGuest)
call fails, the error is reported to the presentation surface; the
user name and screen selection are left unchanged, but the displayed
card UID is overwritten with `"Error: "` plus the message (and the
scan loop then exits). -/
theorem c7_register_guest_failure_frame :
    ∀ (st : ScanState) (ui : UIState) (e : AppError) (resp : List (Fin 256)),
      respTrailerOk resp = true →
      (respPayload resp).length ∈ CONFIG.valid_uid_lengths →
      uidStr (respPayload resp) ≠ st.last_uid →
      scanStep st ui (.connected (some resp) (.error e)) =
        .halt ⟨uidStr (respPayload resp)⟩
          ⟨"Error: " ++ ("Failed to fetch guests: " ++ e.display),
            ui.user_name, ui.current_screen, ui.trivia_name⟩
          [.cardPresent (uidStr (respPayload resp)),
            .errorReported ("Failed to fetch guests: " ++ e.display)] := by
  intro st ui e resp htr hlen hne
  simp [scanStep, htr, hlen, hne, show_error]

/-- C7 witness: a transport failure of the guests call from a fresh
scan. -/
theorem c7_register_guest_failure_frame_witness :
    scanStep ⟨"OLD"⟩ uiTrivia1 (.connected (some respOk4) guestsErr2) =
      .halt ⟨uidStr (respPayload respOk4)⟩
        ⟨"Error: " ++ ("Failed to fetch guests: " ++ (AppError.Http "connection reset").display),
          uiTrivia1.user_name, uiTrivia1.current_screen, uiTrivia1.trivia_name⟩
        [.cardPresent (uidStr (respPayload respOk4)),
          .errorReported
            ("Failed to fetch guests: " ++ (AppError.Http "connection reset").display)] :=
  c7_register_guest_failure_frame ⟨"OLD"⟩ uiTrivia1 (.Http "connection reset") respOk4
    (by decide) (by decide) (by decide)

/-- same-UID cycle: no state change, no events. -/
lemma scanStep_same_uid (st : ScanState) (ui : UIState)
    (g : Except AppError GuestsPostResponse) (resp : List (Fin 256))
    (htr : respTrailerOk resp = true)
    (hlen : (respPayload resp).length ∈ CONFIG.valid_uid_lengths)
    (heq : uidStr (respPayload resp) = st.last_uid) :
    scanStep st ui (.connected (some resp) g) = .step st ui [] := by
  simp [scanStep, htr, hlen, heq]

/-- new-UID cycle: exactly one cardPresent event, stored UID becomes
the new UID (also when the guests call fails and the loop exits). -/
lemma scanStep_new_uid (st : ScanState) (ui : UIState)
    (g : Except AppError GuestsPostResponse) (resp : List (Fin 256))
    (htr : respTrailerOk resp = true)
    (hlen : (respPayload resp).length ∈ CONFIG.valid_uid_lengths)
    (hne : uidStr (respPayload resp) ≠ st.last_uid) :
    (∃ ui2 evs, scanStep st ui (.connected (some resp) g) =
        .step ⟨uidStr (respPayload resp)⟩ ui2 evs ∧ countCardPresent evs = 1) ∨
    (∃ ui2 evs, scanStep st ui (.connected (some resp) g) =
        .halt ⟨uidStr (respPayload resp)⟩ ui2 evs ∧ countCardPresent evs = 1) := by
  cases g with
  | error e =>
    right
    refine ⟨show_error ui ("Failed to fetch guests: " ++ e.display),
      [.cardPresent (uidStr (respPayload resp)),
        .errorReported ("Failed to fetch guests: " ++ e.display)], ?_, rfl⟩
    simp [scanStep, htr, hlen, hne]
  | ok r =>
    left
    cases hg : r.guests with
    | nil =>
      refine ⟨⟨"", "", "welcome", ui.trivia_name⟩,
        [.cardPresent (uidStr (respPayload resp)),
          .errorReported "No guests found in response"], ?_, rfl⟩
      simp [scanStep, htr, hlen, hne, hg, show_error]
    | cons g0 gs =>
      by_cases ht : g0.tag.getD "" = ""
      · refine ⟨⟨g0.tag.getD "", g0.name, "welcome", ui.trivia_name⟩,
          [.cardPresent (uidStr (respPayload resp)),
            .errorReported "Guest tag is missing in response"], ?_, rfl⟩
        simp [scanStep, htr, hlen, hne, hg, ht, show_error]
      · refine ⟨⟨g0.tag.getD "", g0.name, "welcome", ui.trivia_name⟩,
          [.cardPresent (uidStr (respPayload resp))], ?_, rfl⟩
        simp [scanStep, htr, hlen, hne, hg, ht]

/-- invalid transmit response: either a panic or an error report with
no cardPresent event and unchanged scan state. -/
lemma scanStep_invalid (st : ScanState) (ui : UIState)
    (g : Except AppError GuestsPostResponse) (resp : List (Fin 256))
    (hv : ¬ (respTrailerOk resp = true ∧
        (respPayload resp).length ∈ CONFIG.valid_uid_lengths)) :
    scanStep st ui (.connected (some resp) g) = .panic ∨
    ∃ ui2 msg, scanStep st ui (.connected (some resp) g) =
        .step st ui2 [.errorReported msg] := by
  by_cases htr : respTrailerOk resp = true
  · have hlen : (respPayload resp).length ∉ CONFIG.valid_uid_lengths := fun h => hv ⟨htr, h⟩
    right
    exact ⟨show_error ui ("Invalid UID length: " ++ toString (respPayload resp).length),
      "Invalid UID length: " ++ toString (respPayload resp).length,
      by simp [scanStep, htr, hlen]⟩
  · have htr' : respTrailerOk resp = false := by simpa using htr
    cases hb1 : rustIdx resp ((resp.length : Int) - 2) with
    | none => left; simp [scanStep, htr', hb1]
    | some b1 =>
      cases hb2 : rustIdx resp ((resp.length : Int) - 1) with
      | none => left; simp [scanStep, htr', hb1, hb2]
      | some b2 =>
        right
        exact ⟨show_error ui ("Invalid response: " ++ toHex2 b1 ++ " " ++ toHex2 b2),
          "Invalid response: " ++ toHex2 b1 ++ " " ++ toHex2 b2,
          by simp [scanStep, htr', hb1, hb2]⟩

/-- `countCardPresent` distributes over append. -/
lemma countCardPresent_append (a b : List ScanEvent) :
    countCardPresent (a ++ b) = countCardPresent a + countCardPresent b :=
  List.countP_append _ _ _

/-- A same-card trace starting with the card's UID already stored
emits no cardPresent event. -/
lemma scanRun_same_card_zero (resp : List (Fin 256))
    (htr : respTrailerOk resp = true)
    (hlen : (respPayload resp).length ∈ CONFIG.valid_uid_lengths) :
    ∀ (inputs : List CycleInput),
      (∀ i ∈ inputs, ∃ g, i = CycleInput.connected (some resp) g) →
      ∀ (st : ScanState) (ui : UIState), uidStr (respPayload resp) = st.last_uid →
        countCardPresent (scanRun st ui inputs).1 = 0 := by
  intro inputs
  induction inputs with
  | nil => intro _ st ui _; rfl
  | cons i rest ih =>
    intro hall st ui heq
    obtain ⟨g, rfl⟩ := hall i (by simp)
    have hstep := scanStep_same_uid st ui g resp htr hlen heq
    have hrest := ih (fun j hj => hall j (by simp [hj])) st ui heq
    simp only [scanRun, hstep]
    rw [List.nil_append]
    exact hrest

/-- A trace of invalid transmit responses emits no cardPresent
event. -/
lemma scanRun_invalid_zero (resp : List (Fin 256))
    (hv : ¬ (respTrailerOk resp = true ∧
        (respPayload resp).length ∈ CONFIG.valid_uid_lengths)) :
    ∀ (inputs : List CycleInput),
      (∀ i ∈ inputs, ∃ g, i = CycleInput.connected (some resp) g) →
      ∀ (st : ScanState) (ui : UIState),
        countCardPresent (scanRun st ui inputs).1 = 0 := by
  intro inputs
  induction inputs with
  | nil => intro _ st ui; rfl
  | cons i rest ih =>
    intro hall st ui
    obtain ⟨g, rfl⟩ := hall i (by simp)
    rcases scanStep_invalid st ui g resp hv with hp | ⟨ui2, msg, hs⟩
    · simp only [scanRun, hp]
      rfl
    · have hrest := ih (fun j hj => hall j (by simp [hj])) st ui2
      simp only [scanRun, hs]
      rw [countCardPresent_append, hrest]
      rfl

/-- Any trace presenting one and the same card on every cycle emits
at most one cardPresent event. -/
lemma scanRun_same_card_le_one (resp : List (Fin 256)) :
    ∀ (inputs : List CycleInput),
      (∀ i ∈ inputs, ∃ g, i = CycleInput.connected (some resp) g) →
      ∀ (st : ScanState) (ui : UIState),
        countCardPresent (scanRun st ui inputs).1 ≤ 1 := by
  by_cases hval : respTrailerOk resp = true ∧
      (respPayload resp).length ∈ CONFIG.valid_uid_lengths
  · obtain ⟨htr, hlen⟩ := hval
    intro inputs
    induction inputs with
    | nil => intro _ st ui; simp [scanRun, countCardPresent]
    | cons i rest ih =>
      intro hall st ui
      obtain ⟨g, rfl⟩ := hall i (by simp)
      by_cases heq : uidStr (respPayload resp) = st.last_uid
      · have h0 := scanRun_same_card_zero resp htr hlen
          (CycleInput.connected (some resp) g :: rest) hall st ui heq
        omega
      · rcases scanStep_new_uid st ui g resp htr hlen heq with
          ⟨ui2, evs, hs, hc⟩ | ⟨ui2, evs, hs, hc⟩
        · have h0 := scanRun_same_card_zero resp htr hlen rest
            (fun j hj => hall j (by simp [hj])) ⟨uidStr (respPayload resp)⟩ ui2 rfl
          simp only [scanRun, hs]
          rw [countCardPresent_append, hc, h0]
        · simp only [scanRun, hs]
          rw [hc]
  · intro inputs hall st ui
    have h0 := scanRun_invalid_zero resp hval inputs hall st ui
    omega

/-- C6: the ScanState debounce invariant — over every poll-cycle
trace presenting the same card, downstream work (cardPresent) fires
at most once; a no-card cycle after a stored UID clears it and emits
exactly one cardAbsent; further no-card cycles emit nothing; and an
allow-list-violating read is reported as an error leaving the stored
last-UID unchanged. -/
theorem c6_debounce :
    (∀ (resp : List (Fin 256)) (inputs : List CycleInput),
      (∀ i ∈ inputs, ∃ g, i = CycleInput.connected (some resp) g) →
      ∀ (st : ScanState) (ui : UIState),
        countCardPresent (scanRun st ui inputs).1 ≤ 1) ∧
    (∀ (st : ScanState) (ui : UIState), st.last_uid ≠ "" →
      scanStep st ui .noSmartcard = .step ⟨""⟩ ui [.cardAbsent]) ∧
    (∀ (st : ScanState) (ui : UIState), st.last_uid = "" →
      scanStep st ui .noSmartcard = .step st ui []) ∧
    (∀ (st : ScanState) (ui : UIState) (g : Except AppError GuestsPostResponse)
        (resp : List (Fin 256)),
      respTrailerOk resp = true →
      (respPayload resp).length ∉ CONFIG.valid_uid_lengths →
      scanStep st ui (.connected (some resp) g) =
        .step st (show_error ui ("Invalid UID length: " ++ toString (respPayload resp).length))
          [.errorReported ("Invalid UID length: " ++ toString (respPayload resp).length)]) := by
  refine ⟨?_, ?_, ?_, ?_⟩
  · exact fun resp inputs hall st ui => scanRun_same_card_le_one resp inputs hall st ui
  · intro st ui h
    simp [scanStep, h]
  · intro st ui h
    simp [scanStep, h]
  · intro st ui g resp htr hlen
    simp [scanStep, htr, hlen]

/-- C6 witness: a three-cycle same-card trace, a removal after a
stored UID, an idle removal, and an invalid-length read. -/
theorem c6_debounce_witness :
    countCardPresent (scanRun ⟨""⟩ uiBlank
      [CycleInput.connected (some respOk4) guestsOkAlice,
       CycleInput.connected (some respOk4) guestsOkAlice,
       CycleInput.connected (some respOk4) guestsOkAlice]).1 ≤ 1 ∧
    scanStep ⟨"04A1B2C3"⟩ uiBlank .noSmartcard = .step ⟨""⟩ uiBlank [.cardAbsent] ∧
    scanStep ⟨""⟩ uiBlank .noSmartcard = .step ⟨""⟩ uiBlank [] ∧
    scanStep ⟨"X"⟩ uiBlank (.connected (some [0x01, 0x02, 0x90, 0x00]) guestsOkAlice) =
      .step ⟨"X"⟩ (show_error uiBlank
          ("Invalid UID length: " ++ toString (respPayload [0x01, 0x02, 0x90, 0x00]).length))
        [.errorReported
          ("Invalid UID length: " ++ toString (respPayload [0x01, 0x02, 0x90, 0x00]).length)] := by
  refine ⟨?_, ?_, ?_, ?_⟩
  · exact c6_debounce.1 respOk4 _ (by intro i hi; fin_cases hi <;> exact ⟨guestsOkAlice, rfl⟩)
      ⟨""⟩ uiBlank
  · exact c6_debounce.2.1 ⟨"04A1B2C3"⟩ uiBlank (by decide)
  · exact c6_debounce.2.2.1 ⟨""⟩ uiBlank rfl
  · exact c6_debounce.2.2.2 ⟨"X"⟩ uiBlank guestsOkAlice [0x01, 0x02, 0x90, 0x00]
      (by decide) (by decide)
